import Mathlib

namespace Seika

mutual
/-- Model of a JavaScript runtime value, as far as the library observes one:
the absent value, booleans, numbers, strings, and plain objects given as an
ordered field list. -/
inductive JsValue where
  | undefined : JsValue
  | boolean : Bool → JsValue
  | number : Int → JsValue
  | str : String → JsValue
  | obj : JsFields → JsValue
deriving DecidableEq

/-- The ordered field list of a plain JS object: field names paired with
field values. -/
inductive JsFields where
  | nil : JsFields
  | cons : String → JsValue → JsFields → JsFields
deriving DecidableEq
end

/-- Lookup of a field by name in an object's field list: the first field with
that name wins, a missing field reads as the absent value. -/
def JsFields.lookup : JsFields → String → JsValue
  | .nil, _ => .undefined
  | .cons name value rest, wanted =>
      if name = wanted then value else rest.lookup wanted

/-- Property read v.name on a JS value: the field's value when the receiver
is an object having it, otherwise the absent value. -/
def getField (v : JsValue) (name : String) : JsValue :=
  match v with
  | .obj fields => fields.lookup name
  | _ => .undefined

/-- helpers.ts ok: builds the tagged success value. -/
def ok (value : JsValue) : JsValue :=
  .obj (.cons "kind" (.str "ok") (.cons "inner" value .nil))

/-- helpers.ts err: builds the tagged failure value. -/
def err (value : JsValue) : JsValue :=
  .obj (.cons "kind" (.str "err") (.cons "inner" value .nil))

/-- An error thrown by throw new Error(message): observably its message. -/
structure JsError where
  message : String
deriving DecidableEq

/-- methods.ts match (written matchResult because match is a Lean keyword):
calls the ok handler on the payload when the tag is ok, the err handler
otherwise. -/
def matchResult (result : JsValue) (okHandler errHandler : JsValue → JsValue) : JsValue :=
  if getField result "kind" = .str "ok" then okHandler (getField result "inner")
  else errHandler (getField result "inner")

/-- methods.ts isOk: true iff the kind field is ok. -/
def isOk (result : JsValue) : Bool :=
  getField result "kind" = .str "ok"

/-- methods.ts isOkAnd: tag test conjoined with the predicate on the payload. -/
def isOkAnd (result : JsValue) (predicate : JsValue → Bool) : Bool :=
  getField result "kind" = .str "ok" && predicate (getField result "inner")

/-- methods.ts isErr: true iff the kind field is err. -/
def isErr (result : JsValue) : Bool :=
  getField result "kind" = .str "err"

/-- methods.ts isErrAnd: tag test conjoined with the predicate on the payload. -/
def isErrAnd (result : JsValue) (predicate : JsValue → Bool) : Bool :=
  getField result "kind" = .str "err" && predicate (getField result "inner")

/-- methods.ts resultOk: the ok payload, or undefined on an err value. -/
def resultOk (result : JsValue) : JsValue :=
  if getField result "kind" = .str "ok" then getField result "inner" else .undefined

/-- methods.ts resultErr: the err payload, or undefined on an ok value. -/
def resultErr (result : JsValue) : JsValue :=
  if getField result "kind" = .str "err" then getField result "inner" else .undefined

/-- methods.ts map: rebuilds an ok value around fn's image of the payload,
returns the result unchanged on err. -/
def map (result : JsValue) (fn : JsValue → JsValue) : JsValue :=
  if getField result "kind" = .str "ok" then
    .obj (.cons "kind" (.str "ok") (.cons "inner" (fn (getField result "inner")) .nil))
  else result

/-- methods.ts mapOr: fn's image of the ok payload, or the default on err. -/
def mapOr (result : JsValue) (defaultValue : JsValue) (fn : JsValue → JsValue) : JsValue :=
  if getField result "kind" = .str "ok" then fn (getField result "inner") else defaultValue

/-- methods.ts mapOrElse: fn on the ok payload, or fallback on the err payload. -/
def mapOrElse (result : JsValue) (fallback fn : JsValue → JsValue) : JsValue :=
  if getField result "kind" = .str "ok" then fn (getField result "inner")
  else fallback (getField result "inner")

/-- methods.ts mapErr: rebuilds an err value around fn's image of the payload,
returns the result unchanged on ok. -/
def mapErr (result : JsValue) (fn : JsValue → JsValue) : JsValue :=
  if getField result "kind" = .str "err" then
    .obj (.cons "kind" (.str "err") (.cons "inner" (fn (getField result "inner")) .nil))
  else result

/-- methods.ts inspect: calls fn on the ok payload for its side effect only
and returns the result unchanged in all cases. -/
def inspect (result : JsValue) (fn : JsValue → JsValue) : JsValue :=
  if getField result "kind" = .str "ok" then
    let _ := fn (getField result "inner")
    result
  else result

/-- methods.ts inspectErr: calls fn on the err payload for its side effect
only and returns the result unchanged in all cases. -/
def inspectErr (result : JsValue) (fn : JsValue → JsValue) : JsValue :=
  if getField result "kind" = .str "err" then
    let _ := fn (getField result "inner")
    result
  else result

/-- methods.ts expect: the ok payload, or a thrown error carrying the
caller's message on err. -/
def expect (result : JsValue) (message : String) : Except JsError JsValue :=
  if getField result "kind" = .str "ok" then .ok (getField result "inner")
  else .error ⟨message⟩

/-- methods.ts unwrap: the ok payload, or a thrown error with the fixed
diagnostic on err. -/
def unwrap (result : JsValue) : Except JsError JsValue :=
  if getField result "kind" = .str "ok" then .ok (getField result "inner")
  else .error ⟨"Called unwrap on an Err value"⟩

/-- methods.ts unwrapOr: the ok payload, or the default on err. -/
def unwrapOr (result : JsValue) (defaultValue : JsValue) : JsValue :=
  if getField result "kind" = .str "ok" then getField result "inner" else defaultValue

/-- methods.ts unwrapOrElse: the ok payload, or fn on the err payload. -/
def unwrapOrElse (result : JsValue) (fn : JsValue → JsValue) : JsValue :=
  if getField result "kind" = .str "ok" then getField result "inner"
  else fn (getField result "inner")

/-- methods.ts expectErr: the err payload, or a thrown error carrying the
caller's message on ok. -/
def expectErr (result : JsValue) (message : String) : Except JsError JsValue :=
  if getField result "kind" = .str "err" then .ok (getField result "inner")
  else .error ⟨message⟩

/-- methods.ts unwrapErr: the err payload, or a thrown error with the fixed
diagnostic on ok. -/
def unwrapErr (result : JsValue) : Except JsError JsValue :=
  if getField result "kind" = .str "err" then .ok (getField result "inner")
  else .error ⟨"Called unwrapErr on an Ok value"⟩

/-- methods.ts and (written andR because and names a core function): the
second operand when the first is ok, the first unchanged otherwise. -/
def andR (result other : JsValue) : JsValue :=
  if getField result "kind" = .str "ok" then other else result

/-- methods.ts andThen: fn on the ok payload, the result unchanged on err. -/
def andThen (result : JsValue) (fn : JsValue → JsValue) : JsValue :=
  if getField result "kind" = .str "ok" then fn (getField result "inner") else result

/-- methods.ts or (written orR because or names a core function): the first
operand unchanged when it is ok, the second otherwise. -/
def orR (result other : JsValue) : JsValue :=
  if getField result "kind" = .str "ok" then result else other

/-- methods.ts orElse: the result unchanged on ok, fn on the err payload
otherwise. -/
def orElse (result : JsValue) (fn : JsValue → JsValue) : JsValue :=
  if getField result "kind" = .str "ok" then result else fn (getField result "inner")

/-- result-class.ts: the abstract class Res with its two concrete subclasses,
class Ok carrying a value and class Err carrying an error. -/
inductive Res where
  | Ok (value : JsValue)
  | Err (error : JsValue)
deriving DecidableEq

/-- Ok.isOk returns true, Err.isOk returns false. -/
def Res.isOk : Res → Bool
  | .Ok _ => true
  | .Err _ => false

/-- Ok.isErr returns false, Err.isErr returns true. -/
def Res.isErr : Res → Bool
  | .Ok _ => false
  | .Err _ => true

/-- The value accessor: the constructor argument on class Ok; on class Err
the field is declared (value!) but never assigned, so reading it yields
undefined at runtime. -/
def Res.value : Res → JsValue
  | .Ok v => v
  | .Err _ => .undefined

/-- The error accessor: the constructor argument on class Err; on class Ok
the field is declared (error!) but never assigned, so reading it yields
undefined at runtime. -/
def Res.error : Res → JsValue
  | .Ok _ => .undefined
  | .Err e => e

/-- Res.isOkAnd: this.isOk() && predicate(this.value). -/
def Res.isOkAnd (s : Res) (predicate : JsValue → Bool) : Bool :=
  s.isOk && predicate s.value

/-- Res.isErrAnd: this.isErr() && predicate(this.error). -/
def Res.isErrAnd (s : Res) (predicate : JsValue → Bool) : Bool :=
  s.isErr && predicate s.error

/-- The instance method ok() of Res (written okMethod: the static factory
below keeps the name Res.ok): this.value when ok, otherwise undefined. -/
def Res.okMethod (s : Res) : JsValue :=
  if s.isOk then s.value else .undefined

/-- The instance method err() of Res (written errMethod: the static factory
below keeps the name Res.err): this.error when err, otherwise undefined. -/
def Res.errMethod (s : Res) : JsValue :=
  if s.isErr then s.error else .undefined

/-- Res.map: new Ok(fn(this.value)) when ok, else new Err(this.error). -/
def Res.map (s : Res) (fn : JsValue → JsValue) : Res :=
  if s.isOk then .Ok (fn s.value) else .Err s.error

/-- Res.mapOr: fn(this.value) when ok, else the default. -/
def Res.mapOr (s : Res) (defaultValue : JsValue) (fn : JsValue → JsValue) : JsValue :=
  if s.isOk then fn s.value else defaultValue

/-- Res.mapOrElse: fn(this.value) when ok, else fallback(this.error). -/
def Res.mapOrElse (s : Res) (fallback fn : JsValue → JsValue) : JsValue :=
  if s.isOk then fn s.value else fallback s.error

/-- Res.mapErr: new Err(fn(this.error)) when err, else new Ok(this.value). -/
def Res.mapErr (s : Res) (fn : JsValue → JsValue) : Res :=
  if s.isErr then .Err (fn s.error) else .Ok s.value

/-- Res.inspect: calls fn(this.value) for its side effect when ok; returns
the receiver unchanged in all cases. -/
def Res.inspect (s : Res) (fn : JsValue → JsValue) : Res :=
  if s.isOk then
    let _ := fn s.value
    s
  else s

/-- Res.inspectErr: calls fn(this.error) for its side effect when err;
returns the receiver unchanged in all cases. -/
def Res.inspectErr (s : Res) (fn : JsValue → JsValue) : Res :=
  if s.isErr then
    let _ := fn s.error
    s
  else s

/-- Res.expect: this.value when ok, or a thrown error carrying the caller's
message. -/
def Res.expect (s : Res) (message : String) : Except JsError JsValue :=
  if s.isOk then .ok s.value else .error ⟨message⟩

/-- Res.unwrap: this.value when ok, or a thrown error with the fixed
diagnostic. -/
def Res.unwrap (s : Res) : Except JsError JsValue :=
  if s.isOk then .ok s.value else .error ⟨"Called unwrap on an Err value"⟩

/-- Res.unwrapOr: this.value when ok, else the default. -/
def Res.unwrapOr (s : Res) (defaultValue : JsValue) : JsValue :=
  if s.isOk then s.value else defaultValue

/-- Res.unwrapOrElse: this.value when ok, else fn(this.error). -/
def Res.unwrapOrElse (s : Res) (fn : JsValue → JsValue) : JsValue :=
  if s.isOk then s.value else fn s.error

/-- Res.expectErr: this.error when err, or a thrown error carrying the
caller's message. -/
def Res.expectErr (s : Res) (message : String) : Except JsError JsValue :=
  if s.isErr then .ok s.error else .error ⟨message⟩

/-- Res.unwrapErr: this.error when err, or a thrown error with the fixed
diagnostic. -/
def Res.unwrapErr (s : Res) : Except JsError JsValue :=
  if s.isErr then .ok s.error else .error ⟨"Called unwrapErr on an Ok value"⟩

/-- Res.and (written andM: and names a core function): other when ok, else
new Err(this.error). -/
def Res.andM (s other : Res) : Res :=
  if s.isOk then other else .Err s.error

/-- Res.andThen: fn(this.value) when ok, else new Err(this.error). -/
def Res.andThen (s : Res) (fn : JsValue → Res) : Res :=
  if s.isOk then fn s.value else .Err s.error

/-- Res.or (written orM: or names a core function): new Ok(this.value) when
ok, else other. -/
def Res.orM (s other : Res) : Res :=
  if s.isOk then .Ok s.value else other

/-- Res.orElse: new Ok(this.value) when ok, else fn(this.error). -/
def Res.orElse (s : Res) (fn : JsValue → Res) : Res :=
  if s.isOk then .Ok s.value else fn s.error

/-- The static factory Res.ok: new Ok(value). -/
def Res.ok (value : JsValue) : Res :=
  .Ok value

/-- The static factory Res.err: new Err(error). -/
def Res.err (error : JsValue) : Res :=
  .Err error

/-- The static bridge Res.from (written fromResult because from is a Lean
keyword): Res.ok(result.inner) when the tag is ok, else
Res.err(result.inner). -/
def Res.fromResult (result : JsValue) : Res :=
  if getField result "kind" = .str "ok" then Res.ok (getField result "inner")
  else Res.err (getField result "inner")

/-- Ok.toJSON and Err.toJSON: the variant-specific structured rendering. -/
def Res.toJSON : Res → JsValue
  | .Ok v => .obj (.cons "kind" (.str "ok") (.cons "value" v .nil))
  | .Err e => .obj (.cons "kind" (.str "err") (.cons "error" e .nil))

/-- The tagged value holding the same variant and payload as a facade
instance: the reverse projection of the bridge, used to state which pairs of
inputs are equivalent across the two API styles. -/
def Res.toTagged : Res → JsValue
  | .Ok v => Seika.ok v
  | .Err e => Seika.err e

theorem getField_ok_kind (v : JsValue) : getField (ok v) "kind" = .str "ok" := rfl

theorem getField_ok_inner (v : JsValue) : getField (ok v) "inner" = v := rfl

theorem getField_err_kind (e : JsValue) : getField (err e) "kind" = .str "err" := rfl

theorem getField_err_inner (e : JsValue) : getField (err e) "inner" = e := rfl

/-- Claim C1: for every facade instance and the tagged result value holding
the same variant and payload, every operation present in both API styles
produces observably identical results: the same variant and payload for
result-returning operations (compared through the variant-and-payload
projection toTagged), the same boolean for the predicates, the same
extracted plain value for the extracting operations, and the same
success-or-thrown-error outcome for the unwrap family. -/
theorem C1_functional_facade_equivalence
    (s t : Res) (p : JsValue → Bool) (f f₂ : JsValue → JsValue)
    (g : JsValue → Res) (d : JsValue) (m : String) :
    isOk s.toTagged = s.isOk
    ∧ isErr s.toTagged = s.isErr
    ∧ isOkAnd s.toTagged p = s.isOkAnd p
    ∧ isErrAnd s.toTagged p = s.isErrAnd p
    ∧ resultOk s.toTagged = s.okMethod
    ∧ resultErr s.toTagged = s.errMethod
    ∧ map s.toTagged f = (s.map f).toTagged
    ∧ mapOr s.toTagged d f = s.mapOr d f
    ∧ mapOrElse s.toTagged f₂ f = s.mapOrElse f₂ f
    ∧ mapErr s.toTagged f = (s.mapErr f).toTagged
    ∧ inspect s.toTagged f = (s.inspect f).toTagged
    ∧ inspectErr s.toTagged f = (s.inspectErr f).toTagged
    ∧ expect s.toTagged m = s.expect m
    ∧ unwrap s.toTagged = s.unwrap
    ∧ unwrapOr s.toTagged d = s.unwrapOr d
    ∧ unwrapOrElse s.toTagged f = s.unwrapOrElse f
    ∧ expectErr s.toTagged m = s.expectErr m
    ∧ unwrapErr s.toTagged = s.unwrapErr
    ∧ andR s.toTagged t.toTagged = (s.andM t).toTagged
    ∧ andThen s.toTagged (fun v => (g v).toTagged) = (s.andThen g).toTagged
    ∧ orR s.toTagged t.toTagged = (s.orM t).toTagged
    ∧ orElse s.toTagged (fun e => (g e).toTagged) = (s.orElse g).toTagged := by
  cases s <;> cases t <;>
    exact ⟨rfl, rfl, rfl, rfl, rfl, rfl, rfl, rfl, rfl, rfl, rfl, rfl, rfl, rfl,
      rfl, rfl, rfl, rfl, rfl, rfl, rfl, rfl⟩

/-- Claim C2 as stated is false: the discriminant field of the tagged value
built by the functional constructor is named kind, not tag, so success(0)
differs from an object whose discriminant field is named tag. -/
theorem C2_counterexample :
    ok (.number 0) ≠ JsValue.obj (.cons "tag" (.str "ok") (.cons "inner" (.number 0) .nil)) := by
  decide

/-- Claim C2 amended: for every value, the functional success constructor
produces the tagged value whose serialized shape has discriminant field
named kind holding "ok" and payload field named inner holding the value,
with no field named tag; symmetrically for the failure constructor with
"err". -/
theorem C2_tagged_shape (v e : JsValue) :
    ok v = .obj (.cons "kind" (.str "ok") (.cons "inner" v .nil))
    ∧ err e = .obj (.cons "kind" (.str "err") (.cons "inner" e .nil))
    ∧ getField (ok v) "kind" = .str "ok"
    ∧ getField (ok v) "inner" = v
    ∧ getField (ok v) "tag" = .undefined
    ∧ getField (err e) "kind" = .str "err"
    ∧ getField (err e) "inner" = e
    ∧ getField (err e) "tag" = .undefined :=
  ⟨rfl, rfl, rfl, rfl, rfl, rfl, rfl, rfl⟩

/-- Claim C3: the conversion bridge applied to a tagged success value
behaves identically to the facade success factory, and likewise for
failure: same isOk and isErr answers, same payload accessors, and in fact
the same instance. -/
theorem C3_bridge_factory_equivalence (x e : JsValue) :
    (Res.fromResult (ok x)).isOk = (Res.ok x).isOk
    ∧ (Res.fromResult (ok x)).isErr = (Res.ok x).isErr
    ∧ (Res.fromResult (ok x)).value = (Res.ok x).value
    ∧ Res.fromResult (ok x) = Res.ok x
    ∧ (Res.fromResult (err e)).isOk = (Res.err e).isOk
    ∧ (Res.fromResult (err e)).isErr = (Res.err e).isErr
    ∧ (Res.fromResult (err e)).error = (Res.err e).error
    ∧ Res.fromResult (err e) = Res.err e :=
  ⟨rfl, rfl, rfl, rfl, rfl, rfl, rfl, rfl⟩

/-- Claim C4: unwrap on a success returns the payload, and on a failure
fails with the fixed diagnostic "Called unwrap on an Err value", in both
the functional form and the facade method form, for every payload. -/
theorem C4_unwrap_diagnostic (v e : JsValue) :
    unwrap (ok v) = .ok v
    ∧ unwrap (err e) = .error ⟨"Called unwrap on an Err value"⟩
    ∧ (Res.ok v).unwrap = .ok v
    ∧ (Res.err e).unwrap = .error ⟨"Called unwrap on an Err value"⟩ :=
  ⟨rfl, rfl, rfl, rfl⟩

/-- Claim C5: mapping the identity function over a result returns it
unchanged, on both the success and the failure variant: same tag and same
payload. -/
theorem C5_map_identity (v e : JsValue) :
    map (ok v) (fun x => x) = ok v
    ∧ map (err e) (fun x => x) = err e :=
  ⟨rfl, rfl⟩

/-- Claim C6: map on a failure returns the failure unchanged with the same
error payload, in both API styles, and its output does not depend on the
callback in any way: the callback is never invoked. -/
theorem C6_map_err_short_circuit (e : JsValue) (f f₂ : JsValue → JsValue) :
    map (err e) f = err e
    ∧ (Res.err e).map f = Res.err e
    ∧ map (err e) f = map (err e) f₂
    ∧ (Res.err e).map f = (Res.err e).map f₂ :=
  ⟨rfl, rfl, rfl, rfl⟩

/-- Claim C7: every instance built by a public constructor — the functional
success and failure constructors, the facade factories, and the conversion
bridge — answers true to exactly one of isOk and isErr, never both and
never neither. -/
theorem C7_isOk_isErr_exclusive (v e : JsValue) :
    (isOk (ok v) = true ∧ isErr (ok v) = false)
    ∧ (isOk (err e) = false ∧ isErr (err e) = true)
    ∧ ((Res.ok v).isOk = true ∧ (Res.ok v).isErr = false)
    ∧ ((Res.err e).isOk = false ∧ (Res.err e).isErr = true)
    ∧ ((Res.fromResult (ok v)).isOk = true ∧ (Res.fromResult (ok v)).isErr = false)
    ∧ ((Res.fromResult (err e)).isOk = false ∧ (Res.fromResult (err e)).isErr = true) :=
  ⟨⟨rfl, rfl⟩, ⟨rfl, rfl⟩, ⟨rfl, rfl⟩, ⟨rfl, rfl⟩, ⟨rfl, rfl⟩, ⟨rfl, rfl⟩⟩

/-- Claim C8: the facade's structured rendering is exactly kind "ok" with a
field named value holding the payload on the success variant, and kind
"err" with a field named error holding the payload on the failure variant;
neither rendering carries the tagged value's uniform inner field. -/
theorem C8_toJSON_shape (v e : JsValue) :
    (Res.ok v).toJSON = .obj (.cons "kind" (.str "ok") (.cons "value" v .nil))
    ∧ (Res.err e).toJSON = .obj (.cons "kind" (.str "err") (.cons "error" e .nil))
    ∧ getField (Res.ok v).toJSON "value" = v
    ∧ getField (Res.ok v).toJSON "inner" = .undefined
    ∧ getField (Res.err e).toJSON "error" = e
    ∧ getField (Res.err e).toJSON "inner" = .undefined :=
  ⟨rfl, rfl, rfl, rfl, rfl, rfl⟩

/-- Claim C9: reading the mismatched payload accessor on a facade instance
yields the absent value undefined rather than raising: the value accessor
of every failure instance and the error accessor of every success
instance both read as undefined. -/
theorem C9_mismatched_accessor_undefined (v e : JsValue) :
    (Res.err e).value = .undefined
    ∧ (Res.ok v).error = .undefined :=
  ⟨rfl, rfl⟩

/-- Claim C10: resultOk applied to a success carrying undefined returns
undefined, the same marker it returns on every failure; that success
witnesses an input on which resultOk returns undefined while isOk is true
and isErr is false, so returning undefined does not imply the failure
variant. -/
theorem C10_resultOk_undefined_collision (e : JsValue) :
    resultOk (ok .undefined) = .undefined
    ∧ resultOk (err e) = .undefined
    ∧ isOk (ok .undefined) = true
    ∧ isErr (ok .undefined) = false :=
  ⟨rfl, rfl, rfl, rfl⟩

end Seika
